import Mathlib

/-!
Verification development for the synthetic data generator
(`src/synthetic_data.py` of the deployment-risk-prediction repository).

Modelling conventions:
* A pandas timestamp is an `Int` counting minutes since an epoch placed at a
  Monday 00:00, so `dayOfWeek` below agrees with pandas `dayofweek`
  (Monday = 0) and `floorHour` with `ts.floor("h")`.
* Python floats are modelled as `ℚ`; all literal constants in the source are
  decimal and exactly representable.
* Randomness is passed explicitly: every `np.random.*` call site becomes an
  oracle argument keyed by the decision point.  A uniform draw
  (`np.random.rand()`) is a `ℚ`; a Poisson draw is a `Nat` (the oracle
  receives the rate the source passes to `np.random.poisson`); a minute
  offset (`np.random.randint(0, 60)`) is a `Fin 60`, matching the support of
  that call.
* The source ends each generator with
  `pd.DataFrame(rows).sort_values("timestamp").reset_index(drop=True)`.
  When `rows` is the empty list, `pd.DataFrame([])` has no columns and
  `sort_values("timestamp")` raises `KeyError`; the embedding therefore
  returns `Except String (List _)`, erring exactly when the row list is
  empty and otherwise sorting by timestamp.
-/

inductive DeploySize where
  | small
  | medium
  | large
deriving DecidableEq, Repr

inductive IncidentType where
  | deploy_incident
  | load_incident
deriving DecidableEq, Repr

inductive Severity where
  | low
  | medium
  | high
deriving DecidableEq, Repr

/-- Row of the match_events table: timestamp, tournament, traffic_multiplier. -/
structure MatchEvent where
  timestamp : Int
  tournament : String
  traffic_multiplier : ℚ
deriving DecidableEq, Repr

/-- Row of the deploy_events table: timestamp, is_critical_fix, deploy_size. -/
structure DeployEvent where
  timestamp : Int
  is_critical_fix : Bool
  deploy_size : DeploySize
deriving DecidableEq, Repr

/-- Row of the incidents table: timestamp, incident_type, severity. -/
structure Incident where
  timestamp : Int
  incident_type : IncidentType
  severity : Severity
deriving DecidableEq, Repr

/-- `ts.floor("h")`: floor a minute-precision timestamp to the hour
(pandas floors toward minus infinity). -/
def floorHour (t : Int) : Int := 60 * (t.fdiv 60)

/-- `ts.hour`: hour of day, 0..23. -/
def hourOfDay (t : Int) : Nat := ((t.fdiv 60).emod 24).toNat

/-- `ts.dayofweek`: day of week with Monday = 0 (epoch is a Monday 00:00). -/
def dayOfWeek (t : Int) : Nat := ((t.fdiv 1440).emod 7).toNat

/-- `pd.date_range(start, end, freq="h")`: the hours `start + 60*k ≤ end`,
empty when `end < start`. -/
def hoursBetween (s e : Int) : List Int :=
  if e < s then []
  else (List.range ((e - s).toNat / 60 + 1)).map (fun (k : Nat) => s + 60 * (k : Int))

/-- `np.clip(x, lo, hi)`. -/
def clipQ (x lo hi : ℚ) : ℚ := min hi (max lo x)

/-- Insert `a` into a list assumed sorted ascending by the key `f`. -/
def insertSorted {α : Type} (f : α → Int) (a : α) : List α → List α
  | [] => [a]
  | b :: l => if f a ≤ f b then a :: b :: l else b :: insertSorted f a l

/-- Sort a list ascending by the key `f`; models
`sort_values("timestamp")` (any comparison sort has the same sorted result,
and only sortedness and membership are used below). -/
def sortByKey {α : Type} (f : α → Int) : List α → List α
  | [] => []
  | a :: l => insertSorted f a (sortByKey f l)

/-- Keep one copy of every element (models the distinctness of `groupby`
keys; the subsequent sort makes the retained positions irrelevant). -/
def dedupInt : List Int → List Int
  | [] => []
  | a :: l => if a ∈ l then dedupInt l else a :: dedupInt l

/-- One tournament window of the `windows` dict in `generate_match_events`. -/
structure MatchWindow where
  name : String
  days : List Nat
  hours : List Nat
  base : ℚ
  prob : ℚ

/-- The `windows` dict of `generate_match_events`, in insertion order. -/
def windows : List MatchWindow :=
  [ { name := "Brasileirao", days := [2, 3], hours := [19, 20, 21],
      base := 17/10, prob := 80/100 },
    { name := "Champions League", days := [2],
      hours := [15, 16, 17, 18, 19, 20, 21], base := 21/10, prob := 65/100 },
    { name := "Europa League", days := [3],
      hours := [15, 16, 17, 18, 19, 20, 21], base := 18/10, prob := 60/100 },
    { name := "Libertadores", days := [2, 3], hours := [19, 20, 21],
      base := 19/10, prob := 75/100 },
    { name := "Weekend matches", days := [5, 6], hours := [16, 17, 18, 19, 20],
      base := 2, prob := 85/100 } ]

/-- `generate_match_events(start_date, end_date)`.
`randOcc ts name` is the `np.random.rand()` occurrence draw for hour `ts` and
tournament `name`; `randNorm ts name` is the `np.random.normal(base, 0.20)`
draw (any rational, subsequently clipped to [1.0, 3.2]). -/
def generate_match_events (s e : Int) (randOcc randNorm : Int → String → ℚ) :
    Except String (List MatchEvent) :=
  let rows := (hoursBetween s e).flatMap (fun ts =>
    windows.filterMap (fun w =>
      if (dayOfWeek ts ∈ w.days ∧ hourOfDay ts ∈ w.hours) ∧
          randOcc ts w.name < w.prob then
        some { timestamp := ts, tournament := w.name,
               traffic_multiplier := clipQ (randNorm ts w.name) 1 (16/5) }
      else none))
  if rows.isEmpty then .error "KeyError: timestamp"
  else .ok (sortByKey (fun r => r.timestamp) rows)

/-- The `base_rate(dow, hour)` Poisson-rate table of `generate_deploy_events`. -/
def base_rate (dow hour : Nat) : ℚ :=
  if dow ≤ 3 then
    if 9 ≤ hour ∧ hour < 12 then 9/10
    else if 12 ≤ hour ∧ hour < 16 then 11/10
    else if 16 ≤ hour ∧ hour < 18 then 17/10
    else if 18 ≤ hour ∧ hour < 22 then 7/10
    else 8/100
  else if dow = 4 then
    if 10 ≤ hour ∧ hour < 15 then 55/100
    else if 15 ≤ hour ∧ hour < 17 then 1
    else if 17 ≤ hour ∧ hour < 20 then 45/100
    else 6/100
  else 3/100

/-- The `base_crit` criticality probability computed inline in
`generate_deploy_events`: starts at 0.07, replaced by 0.22 when `dow >= 5`,
then `+= 0.10` when Friday 15..18. -/
def base_crit (dow hour : Nat) : ℚ :=
  let b : ℚ := 7/100
  let b := if 5 ≤ dow then 22/100 else b
  let b := if dow = 4 ∧ (15 ≤ hour ∧ hour ≤ 18) then b + 10/100 else b
  b

/-- `np.random.choice(["small", "medium"], p=[0.70, 0.30])` by inverse CDF of
the uniform draw `u`. -/
def chooseSizeCritical (u : ℚ) : DeploySize :=
  if u < 70/100 then .small else .medium

/-- `np.random.choice(["small", "medium", "large"], p=[0.45, 0.40, 0.15])`
by inverse CDF of the uniform draw `u`. -/
def chooseSizeRegular (u : ℚ) : DeploySize :=
  if u < 45/100 then .small
  else if u < 85/100 then .medium
  else .large

/-- `generate_deploy_events(start_date, end_date)`.
`nDeploys hourTs lam` is the `np.random.poisson(lam)` draw for the hour
(the source passes `base_rate(dow, hour)` as `lam`); `minuteOf hourTs i`,
`critDraw hourTs i` and `sizeDraw hourTs i` are the per-deploy minute,
criticality and size draws for the `i`-th deploy of the hour. -/
def generate_deploy_events (s e : Int)
    (nDeploys : Int → ℚ → Nat) (minuteOf : Int → Nat → Fin 60)
    (critDraw sizeDraw : Int → Nat → ℚ) :
    Except String (List DeployEvent) :=
  let rows := (hoursBetween s e).flatMap (fun hourTs =>
    let dow := dayOfWeek hourTs
    let hour := hourOfDay hourTs
    (List.range (nDeploys hourTs (base_rate dow hour))).map (fun i =>
      let ts := hourTs + ((minuteOf hourTs i).val : Int)
      let isCrit := decide (critDraw hourTs i < base_crit dow hour)
      { timestamp := ts, is_critical_fix := isCrit,
        deploy_size :=
          if isCrit then chooseSizeCritical (sizeDraw hourTs i)
          else chooseSizeRegular (sizeDraw hourTs i) }))
  if rows.isEmpty then .error "KeyError: timestamp"
  else .ok (sortByKey (fun r => r.timestamp) rows)

/-- The per-hour match intensity: `matches_df` grouped by floored hour with
`traffic_multiplier` summed; an hour with no match rows sums to 0, which is
also the `reindex(..., fill_value=0.0)` default. -/
def hourlyMatch (ms : List MatchEvent) (h : Int) : ℚ :=
  ((ms.filter (fun m => decide (floorHour m.timestamp = h))).map
    (fun m => m.traffic_multiplier)).sum

/-- The index of the `hourly_match` series: the distinct floored hours of the
match table, sorted ascending (`groupby` + `sort_index`). -/
def matchHourKeys (ms : List MatchEvent) : List Int :=
  sortByKey (fun k => k) (dedupInt (ms.map (fun m => floorHour m.timestamp)))

/-- The `near_hours` 5-hour window `pd.date_range(hour_ts - 2h, hour_ts + 2h,
freq="h")` centered on a floored hour. -/
def windowHours (hourTs : Int) : List Int :=
  [hourTs - 120, hourTs - 60, hourTs, hourTs + 60, hourTs + 120]

/-- `hourly_match.reindex(near_hours, fill_value=0.0).max()`: the maximum of
the five per-hour intensities of the window. -/
def nearMatchIntensity (ms : List MatchEvent) (hourTs : Int) : ℚ :=
  max (max (max (max (hourlyMatch ms (hourTs - 120))
    (hourlyMatch ms (hourTs - 60)))
    (hourlyMatch ms hourTs))
    (hourlyMatch ms (hourTs + 60)))
    (hourlyMatch ms (hourTs + 120))

/-- The incident probability of `generate_incidents` before the final
`np.clip`: 0.010 plus the if-guarded additive adjustments. -/
def preClampProb (dow hour : Nat) (isCrit : Bool) (size : DeploySize)
    (near : ℚ) : ℚ :=
  let p : ℚ := 10/1000
  let p := if 16 ≤ hour ∧ hour ≤ 18 then p + 40/1000 else p
  let p := if dow = 2 ∨ dow = 3 then p + 10/1000 else p
  let p := if dow = 4 ∧ (15 ≤ hour ∧ hour ≤ 18) then p + 25/1000 else p
  let p := if isCrit then p + 20/1000 else p
  let p := if size = .large then p + 30/1000
           else if size = .medium then p + 15/1000
           else p
  p + min (8/100) (near * (2/100))

/-- The incident probability actually used: `np.clip(p, 0.0, 0.95)`. -/
def incidentProb (dow hour : Nat) (isCrit : Bool) (size : DeploySize)
    (near : ℚ) : ℚ :=
  clipQ (preClampProb dow hour isCrit size near) 0 (95/100)

/-- Severity of an emitted deploy_incident row as a function of `p`. -/
def severityOf (p : ℚ) : Severity :=
  if 12/100 ≤ p then .high
  else if 7/100 ≤ p then .medium
  else .low

/-- Severity of an emitted load_incident row as a function of the hour's
aggregated intensity. -/
def loadSeverity (intensity : ℚ) : Severity :=
  if 45/10 ≤ intensity then .high
  else if 3 ≤ intensity then .medium
  else .low

/-- `generate_incidents(deploys_df, matches_df)`.
`incDraw i` is the Bernoulli uniform draw for the `i`-th deploy row;
`nLoad hourTs lam` is the `np.random.poisson(lam)` draw for a match hour
(the source passes `max(0.0, 0.03 * intensity)` as `lam`); `minuteOf hourTs j`
is the minute draw of the `j`-th load incident of that hour. -/
def generate_incidents (deploys : List DeployEvent) (ms : List MatchEvent)
    (incDraw : Nat → ℚ) (nLoad : Int → ℚ → Nat)
    (minuteOf : Int → Nat → Fin 60) :
    Except String (List Incident) :=
  let deployRows := deploys.enum.filterMap (fun pair =>
    let dep := pair.2
    let ts := dep.timestamp
    let hourTs := floorHour ts
    let near := nearMatchIntensity ms hourTs
    let p := incidentProb (dayOfWeek ts) (hourOfDay ts) dep.is_critical_fix
      dep.deploy_size near
    if incDraw pair.1 < p then
      some { timestamp := ts, incident_type := .deploy_incident,
             severity := severityOf p }
    else none)
  let loadRows := (matchHourKeys ms).flatMap (fun hourTs =>
    let intensity := hourlyMatch ms hourTs
    let lam := max 0 ((3/100) * intensity)
    (List.range (nLoad hourTs lam)).map (fun j =>
      { timestamp := hourTs + ((minuteOf hourTs j).val : Int),
        incident_type := .load_incident,
        severity := loadSeverity intensity }))
  let rows := deployRows ++ loadRows
  if rows.isEmpty then .error "KeyError: timestamp"
  else .ok (sortByKey (fun r => r.timestamp) rows)

/-- The last hour of the grid `hoursBetween s e` (equals `s` when the range is
empty or a single hour). -/
def lastGridHour (s e : Int) : Int := s + 60 * (((e - s).toNat / 60 : Nat) : Int)

/-- The deploy-rate table as the specification words it: Mon-Thu 0.9 for hours
9-11, 1.1 for 12-15, 1.7 for 16-17, 0.7 for 18-21, 0.08 otherwise; Friday 0.55
for 10-14, 1.0 for 15-16, 0.45 for 17-19, 0.06 otherwise; weekend 0.03. -/
def specRate (dow hour : Nat) : ℚ :=
  if dow ≤ 3 then
    if 9 ≤ hour ∧ hour ≤ 11 then 9/10
    else if 12 ≤ hour ∧ hour ≤ 15 then 11/10
    else if 16 ≤ hour ∧ hour ≤ 17 then 17/10
    else if 18 ≤ hour ∧ hour ≤ 21 then 7/10
    else 8/100
  else if dow = 4 then
    if 10 ≤ hour ∧ hour ≤ 14 then 55/100
    else if 15 ≤ hour ∧ hour ≤ 16 then 1
    else if 17 ≤ hour ∧ hour ≤ 19 then 45/100
    else 6/100
  else 3/100

/-- The criticality probability as the specification words it: 0.07 on
Mon-Thu, 0.22 on Sat/Sun, 0.07 + 0.10 on Friday 15:00-18:00, else 0.07. -/
def specCritProb (dow hour : Nat) : ℚ :=
  if dow ≤ 3 then 7/100
  else if 5 ≤ dow then 22/100
  else if 15 ≤ hour ∧ hour ≤ 18 then 7/100 + 10/100
  else 7/100

/-- The incident probability exactly as claim C2 and the spec word it:
0.010 plus the six additive adjustments with the +0.010 day-of-week bonus on
Tuesday or Wednesday (day-of-week 1 or 2 under the Monday = 0 convention),
clamped to [0, 0.95]. -/
def specIncidentProb (dow hour : Nat) (isCrit : Bool) (size : DeploySize)
    (near : ℚ) : ℚ :=
  clipQ ((10:ℚ)/1000
    + (if 16 ≤ hour ∧ hour ≤ 18 then (40:ℚ)/1000 else 0)
    + (if dow = 1 ∨ dow = 2 then (10:ℚ)/1000 else 0)
    + (if dow = 4 ∧ (15 ≤ hour ∧ hour ≤ 18) then (25:ℚ)/1000 else 0)
    + (if isCrit then (20:ℚ)/1000 else 0)
    + (if size = DeploySize.large then (30:ℚ)/1000
       else if size = DeploySize.medium then (15:ℚ)/1000 else 0)
    + min ((8:ℚ)/100) (near * (2/100))) 0 (95/100)

/-- The amended incident probability: identical to `specIncidentProb` except
that the +0.010 day-of-week bonus is on Wednesday or Thursday (day-of-week 2
or 3), which is the set `dow in (2, 3)` the source actually tests. -/
def amendedIncidentProb (dow hour : Nat) (isCrit : Bool) (size : DeploySize)
    (near : ℚ) : ℚ :=
  clipQ ((10:ℚ)/1000
    + (if 16 ≤ hour ∧ hour ≤ 18 then (40:ℚ)/1000 else 0)
    + (if dow = 2 ∨ dow = 3 then (10:ℚ)/1000 else 0)
    + (if dow = 4 ∧ (15 ≤ hour ∧ hour ≤ 18) then (25:ℚ)/1000 else 0)
    + (if isCrit then (20:ℚ)/1000 else 0)
    + (if size = DeploySize.large then (30:ℚ)/1000
       else if size = DeploySize.medium then (15:ℚ)/1000 else 0)
    + min ((8:ℚ)/100) (near * (2/100))) 0 (95/100)

/-- C4: the Poisson rate used by generate_deploy_events agrees with the
spec's lookup table on every (day-of-week, hour) pair, and in particular
Monday 17:00 uses rate 1.7. -/
theorem deploy_rate_table_correct :
    (∀ (d : Fin 7) (h : Fin 24), base_rate d.val h.val = specRate d.val h.val)
    ∧ base_rate 0 17 = 17/10 := by
  constructor
  · rintro ⟨dow, hd⟩ ⟨hour, hh⟩
    simp only [base_rate, specRate]
    split_ifs <;> first | rfl | omega
  · simp [base_rate]

/-- C5: the criticality probability used for the is_critical_fix draw is
0.07 on Mon-Thu, 0.22 on Sat/Sun, 0.17 on Friday 15:00-18:00 and 0.07 on
Friday otherwise, for every (day-of-week, hour) pair. -/
theorem crit_prob_table_correct :
    ∀ (d : Fin 7) (h : Fin 24), base_crit d.val h.val = specCritProb d.val h.val := by
  rintro ⟨dow, hd⟩ ⟨hour, hh⟩
  simp only [base_crit, specCritProb]
  split_ifs <;> first | rfl | omega

/-- C2 counterexample: the claim's formula (specIncidentProb, with the
+0.010 bonus on Tuesday or Wednesday) disagrees with the code: for a
non-critical small deploy at midnight with zero nearby intensity, the code
gives 0.010 on Tuesday (day 1) where the claim gives 0.020, and 0.020 on
Thursday (day 3) where the claim gives 0.010 — the source tests
`dow in (2, 3)`, i.e. Wednesday/Thursday under Monday = 0. -/
theorem incident_prob_tue_wed_counterexample :
    incidentProb 1 0 false DeploySize.small 0 = 1/100
    ∧ specIncidentProb 1 0 false DeploySize.small 0 = 2/100
    ∧ incidentProb 3 0 false DeploySize.small 0 = 2/100
    ∧ specIncidentProb 3 0 false DeploySize.small 0 = 1/100
    ∧ incidentProb 1 0 false DeploySize.small 0
        ≠ specIncidentProb 1 0 false DeploySize.small 0
    ∧ incidentProb 3 0 false DeploySize.small 0
        ≠ specIncidentProb 3 0 false DeploySize.small 0 := by
  have hsl : ¬ (DeploySize.small = DeploySize.large) := by decide
  have hsm : ¬ (DeploySize.small = DeploySize.medium) := by decide
  have h1 : incidentProb 1 0 false DeploySize.small 0 = 1/100 := by
    norm_num [incidentProb, preClampProb, clipQ, min_def, max_def, hsl, hsm]
  have h2 : specIncidentProb 1 0 false DeploySize.small 0 = 2/100 := by
    norm_num [specIncidentProb, clipQ, min_def, max_def, hsl, hsm]
  have h3 : incidentProb 3 0 false DeploySize.small 0 = 2/100 := by
    norm_num [incidentProb, preClampProb, clipQ, min_def, max_def, hsl, hsm]
  have h4 : specIncidentProb 3 0 false DeploySize.small 0 = 1/100 := by
    norm_num [specIncidentProb, clipQ, min_def, max_def, hsl, hsm]
  refine ⟨h1, h2, h3, h4, ?_, ?_⟩
  · rw [h1, h2]; norm_num
  · rw [h3, h4]; norm_num

/-- C2 (amended): the incident probability of generate_incidents is exactly
0.010 plus the six additive adjustments with the +0.010 day-of-week bonus on
Wednesday or Thursday (not Tuesday or Wednesday), clamped to [0, 0.95], and
the severity of an emitted deploy_incident row is high when p at least 0.12,
medium when p in [0.07, 0.12), low otherwise. -/
theorem incident_prob_amended_formula_correct :
    (∀ (dow hour : Nat) (isCrit : Bool) (size : DeploySize) (near : ℚ),
      incidentProb dow hour isCrit size near
        = amendedIncidentProb dow hour isCrit size near)
    ∧ ∀ p : ℚ, severityOf p =
        if 12/100 ≤ p then Severity.high
        else if 7/100 ≤ p ∧ p < 12/100 then Severity.medium
        else Severity.low := by
  constructor
  · intro dow hour isCrit size near
    have h : preClampProb dow hour isCrit size near
        = (10:ℚ)/1000
          + (if 16 ≤ hour ∧ hour ≤ 18 then (40:ℚ)/1000 else 0)
          + (if dow = 2 ∨ dow = 3 then (10:ℚ)/1000 else 0)
          + (if dow = 4 ∧ (15 ≤ hour ∧ hour ≤ 18) then (25:ℚ)/1000 else 0)
          + (if isCrit then (20:ℚ)/1000 else 0)
          + (if size = DeploySize.large then (30:ℚ)/1000
             else if size = DeploySize.medium then (15:ℚ)/1000 else 0)
          + min ((8:ℚ)/100) (near * (2/100)) := by
      simp only [preClampProb]
      split_ifs <;> ring
    simp only [incidentProb, amendedIncidentProb, h]
  · intro p
    simp only [severityOf]
    by_cases h1 : (12:ℚ)/100 ≤ p
    · simp [h1]
    · by_cases h2 : (7:ℚ)/100 ≤ p
      · have h3 : p < 12/100 := lt_of_not_le h1
        simp [h1, h2, h3]
      · simp [h1, h2]

/-- C1 (bug evaluation): on a date range with no candidate rows the source
does not return an empty table; `pd.DataFrame([])` has no columns, so the
trailing `sort_values("timestamp")` raises KeyError.  Evaluated here at an
end-before-start range for the match and deploy generators, at the
single-hour range start = end = Monday 00:00 (where no tournament window
matches and a zero Poisson draw yields no deploys), and at empty inputs for
generate_incidents. -/
theorem empty_range_raises_key_error :
    generate_match_events 60 0 (fun _ _ => 0) (fun _ _ => 0)
        = .error "KeyError: timestamp"
    ∧ generate_deploy_events 60 0 (fun _ _ => 0) (fun _ _ => 0)
        (fun _ _ => 0) (fun _ _ => 0) = .error "KeyError: timestamp"
    ∧ generate_match_events 0 0 (fun _ _ => 0) (fun _ _ => 0)
        = .error "KeyError: timestamp"
    ∧ generate_deploy_events 0 0 (fun _ _ => 0) (fun _ _ => 0)
        (fun _ _ => 0) (fun _ _ => 0) = .error "KeyError: timestamp"
    ∧ generate_incidents [] [] (fun _ => 0) (fun _ _ => 0) (fun _ _ => 0)
        = .error "KeyError: timestamp" :=
  ⟨rfl, rfl, rfl, rfl, rfl⟩

theorem mem_insertSorted {α : Type} (f : α → Int) (a x : α) :
    ∀ l : List α, x ∈ insertSorted f a l ↔ x = a ∨ x ∈ l
  | [] => by simp [insertSorted]
  | b :: l => by
    simp only [insertSorted]
    split
    · simp [List.mem_cons]
    · simp only [List.mem_cons, mem_insertSorted f a x l]
      tauto

theorem pairwise_insertSorted {α : Type} (f : α → Int) (a : α) :
    ∀ l : List α, l.Pairwise (fun x y => f x ≤ f y) →
      (insertSorted f a l).Pairwise (fun x y => f x ≤ f y)
  | [], _ => by simp [insertSorted]
  | b :: l, h => by
    rcases List.pairwise_cons.mp h with ⟨hb, hl⟩
    simp only [insertSorted]
    split
    case isTrue hab =>
      refine List.pairwise_cons.mpr ⟨?_, h⟩
      intro x hx
      rcases List.mem_cons.mp hx with rfl | hx
      · exact hab
      · exact le_trans hab (hb x hx)
    case isFalse hab =>
      refine List.pairwise_cons.mpr ⟨?_, pairwise_insertSorted f a l hl⟩
      intro x hx
      rcases (mem_insertSorted f a x l).mp hx with rfl | hx
      · omega
      · exact hb x hx

theorem pairwise_sortByKey {α : Type} (f : α → Int) :
    ∀ l : List α, (sortByKey f l).Pairwise (fun x y => f x ≤ f y)
  | [] => by simp [sortByKey]
  | a :: l => pairwise_insertSorted f a _ (pairwise_sortByKey f l)

theorem mem_sortByKey {α : Type} (f : α → Int) (x : α) :
    ∀ l : List α, x ∈ sortByKey f l ↔ x ∈ l
  | [] => Iff.rfl
  | a :: l => by
    rw [sortByKey, mem_insertSorted f a x, mem_sortByKey f x l, List.mem_cons]

theorem mem_dedupInt (x : Int) : ∀ l : List Int, x ∈ dedupInt l ↔ x ∈ l
  | [] => Iff.rfl
  | a :: l => by
    simp only [dedupInt]
    split
    case isTrue h =>
      rw [mem_dedupInt x l, List.mem_cons]
      constructor
      · exact Or.inr
      · rintro (rfl | hx)
        · exact h
        · exact hx
    case isFalse h =>
      simp only [List.mem_cons, mem_dedupInt x l]

/-- C6: every table returned by the three generators is sorted by timestamp
ascending across consecutive rows (the positional index of the list model is
0..n-1 by construction, which is the reset index). -/
theorem generated_tables_sorted :
    (∀ s e randOcc randNorm l, generate_match_events s e randOcc randNorm = .ok l →
      l.Pairwise (fun a b => a.timestamp ≤ b.timestamp))
    ∧ (∀ s e nDeploys minuteOf critDraw sizeDraw l,
        generate_deploy_events s e nDeploys minuteOf critDraw sizeDraw = .ok l →
        l.Pairwise (fun a b => a.timestamp ≤ b.timestamp))
    ∧ (∀ deploys ms incDraw nLoad minuteOf l,
        generate_incidents deploys ms incDraw nLoad minuteOf = .ok l →
        l.Pairwise (fun a b => a.timestamp ≤ b.timestamp)) := by
  refine ⟨?_, ?_, ?_⟩
  · intro s e randOcc randNorm l h
    simp only [generate_match_events] at h
    split at h
    · exact absurd h (by simp)
    · cases h
      exact pairwise_sortByKey _ _
  · intro s e nDeploys minuteOf critDraw sizeDraw l h
    simp only [generate_deploy_events] at h
    split at h
    · exact absurd h (by simp)
    · cases h
      exact pairwise_sortByKey _ _
  · intro deploys ms incDraw nLoad minuteOf l h
    simp only [generate_incidents] at h
    split at h
    · exact absurd h (by simp)
    · cases h
      exact pairwise_sortByKey _ _

theorem clipQ_bounds (x lo hi : ℚ) (h : lo ≤ hi) :
    lo ≤ clipQ x lo hi ∧ clipQ x lo hi ≤ hi :=
  ⟨le_min h (le_max_left lo x), min_le_left hi (max lo x)⟩

/-- C7: every generated row has its fields in the declared domains:
match traffic multipliers lie in [1.0, 3.2] (3.2 = 16/5), deploy sizes are
one of small/medium/large, incident severities one of low/medium/high and
incident types one of deploy_incident/load_incident. -/
theorem field_domains :
    (∀ s e randOcc randNorm l, generate_match_events s e randOcc randNorm = .ok l →
      ∀ r ∈ l, 1 ≤ r.traffic_multiplier ∧ r.traffic_multiplier ≤ 16/5)
    ∧ (∀ s e nDeploys minuteOf critDraw sizeDraw l,
        generate_deploy_events s e nDeploys minuteOf critDraw sizeDraw = .ok l →
        ∀ r ∈ l, r.deploy_size = DeploySize.small ∨ r.deploy_size = DeploySize.medium
          ∨ r.deploy_size = DeploySize.large)
    ∧ (∀ deploys ms incDraw nLoad minuteOf l,
        generate_incidents deploys ms incDraw nLoad minuteOf = .ok l →
        ∀ r ∈ l,
          (r.severity = Severity.low ∨ r.severity = Severity.medium
            ∨ r.severity = Severity.high)
          ∧ (r.incident_type = IncidentType.deploy_incident
            ∨ r.incident_type = IncidentType.load_incident)) := by
  refine ⟨?_, ?_, ?_⟩
  · intro s e randOcc randNorm l h r hr
    simp only [generate_match_events] at h
    split at h
    · exact absurd h (by simp)
    · cases h
      rw [mem_sortByKey] at hr
      simp only [List.mem_flatMap, List.mem_filterMap] at hr
      obtain ⟨ts, _, w, _, hsome⟩ := hr
      split at hsome
      · cases hsome
        exact clipQ_bounds _ 1 (16/5) (by norm_num)
      · exact absurd hsome (by simp)
  · intro s e nDeploys minuteOf critDraw sizeDraw l h r hr
    cases hsz : r.deploy_size <;> simp [hsz]
  · intro deploys ms incDraw nLoad minuteOf l h r hr
    constructor
    · cases hsv : r.severity <;> simp [hsv]
    · cases hit : r.incident_type <;> simp [hit]

/-- C3: the nearby match intensity used for a deploy whose timestamp floors
to `hourTs` is exactly the maximum, over the five hours `hourTs` minus two
hours to `hourTs` plus two hours, of the per-hour sum of traffic multipliers
(hours with no match rows contributing 0, which is what `hourlyMatch` yields
on them). -/
theorem near_match_intensity_is_window_max (ms : List MatchEvent) (hourTs : Int) :
    (∀ k ∈ windowHours hourTs, hourlyMatch ms k ≤ nearMatchIntensity ms hourTs)
    ∧ ∃ k ∈ windowHours hourTs,
        nearMatchIntensity ms hourTs = hourlyMatch ms k := by
  constructor
  · intro k hk
    simp only [windowHours, List.mem_cons, List.not_mem_nil, or_false] at hk
    rcases hk with rfl | rfl | rfl | rfl | rfl <;>
      simp [nearMatchIntensity, le_max_iff, le_refl]
  · rcases max_choice (max (max (max (hourlyMatch ms (hourTs - 120))
        (hourlyMatch ms (hourTs - 60))) (hourlyMatch ms hourTs))
        (hourlyMatch ms (hourTs + 60))) (hourlyMatch ms (hourTs + 120)) with h1 | h1
    · rcases max_choice (max (max (hourlyMatch ms (hourTs - 120))
          (hourlyMatch ms (hourTs - 60))) (hourlyMatch ms hourTs))
          (hourlyMatch ms (hourTs + 60)) with h2 | h2
      · rcases max_choice (max (hourlyMatch ms (hourTs - 120))
            (hourlyMatch ms (hourTs - 60))) (hourlyMatch ms hourTs) with h3 | h3
        · rcases max_choice (hourlyMatch ms (hourTs - 120))
              (hourlyMatch ms (hourTs - 60)) with h4 | h4
          · exact ⟨hourTs - 120, by simp [windowHours],
              by simp only [nearMatchIntensity]; rw [h1, h2, h3, h4]⟩
          · exact ⟨hourTs - 60, by simp [windowHours],
              by simp only [nearMatchIntensity]; rw [h1, h2, h3, h4]⟩
        · exact ⟨hourTs, by simp [windowHours],
            by simp only [nearMatchIntensity]; rw [h1, h2, h3]⟩
      · exact ⟨hourTs + 60, by simp [windowHours],
          by simp only [nearMatchIntensity]; rw [h1, h2]⟩
    · exact ⟨hourTs + 120, by simp [windowHours],
        by simp only [nearMatchIntensity]; rw [h1]⟩

/-- C8: with an empty match table every 5-hour window intensity is 0, and a
successful generate_incidents run on an empty match table contains only
deploy_incident rows (zero load_incident rows). -/
theorem empty_match_table_no_load_incidents :
    (∀ h : Int, nearMatchIntensity [] h = 0)
    ∧ ∀ deploys incDraw nLoad minuteOf l,
        generate_incidents deploys [] incDraw nLoad minuteOf = .ok l →
        ∀ r ∈ l, r.incident_type = IncidentType.deploy_incident := by
  constructor
  · intro h
    simp [nearMatchIntensity, hourlyMatch]
  · intro deploys incDraw nLoad minuteOf l hl r hr
    simp only [generate_incidents, matchHourKeys, List.map_nil, dedupInt, sortByKey,
      List.flatMap_nil, List.append_nil] at hl
    split at hl
    · exact absurd hl (by simp)
    · cases hl
      rw [mem_sortByKey] at hr
      simp only [List.mem_filterMap] at hr
      obtain ⟨pair, _, hsome⟩ := hr
      split at hsome
      · cases hsome
        rfl
      · exact absurd hsome (by simp)

theorem mem_hoursBetween {s e t : Int} (h : t ∈ hoursBetween s e) :
    s ≤ t ∧ t ≤ lastGridHour s e := by
  simp only [hoursBetween] at h
  split at h
  · exact absurd h (by simp)
  · rw [List.mem_map] at h
    obtain ⟨k, hk, rfl⟩ := h
    rw [List.mem_range] at hk
    unfold lastGridHour
    omega

theorem mem_matchHourKeys {ms : List MatchEvent} {k : Int} :
    k ∈ matchHourKeys ms ↔ ∃ m ∈ ms, floorHour m.timestamp = k := by
  simp [matchHourKeys, mem_sortByKey, mem_dedupInt, List.mem_map]

/-- C9: every deploy timestamp lies between start_date and the last grid
hour plus 59 minutes; a deploy can land up to 59 minutes past end_date (at
start = end = 0 a minute draw of 59 produces timestamp 59 = end + 59); and
every load_incident timestamp lies within 59 minutes after the floored hour
of some match row (hence at most the last match hour plus 59 minutes). -/
theorem deploy_timestamp_bounds :
    (∀ s e nDeploys minuteOf critDraw sizeDraw l,
      generate_deploy_events s e nDeploys minuteOf critDraw sizeDraw = .ok l →
      ∀ r ∈ l, s ≤ r.timestamp ∧ r.timestamp ≤ lastGridHour s e + 59)
    ∧ generate_deploy_events 0 0 (fun _ _ => 1) (fun _ _ => ⟨59, by omega⟩)
        (fun _ _ => 1) (fun _ _ => 0)
        = .ok [⟨59, false, DeploySize.small⟩]
    ∧ (∀ deploys ms incDraw nLoad minuteOf l,
        generate_incidents deploys ms incDraw nLoad minuteOf = .ok l →
        ∀ r ∈ l, r.incident_type = IncidentType.load_incident →
          ∃ m ∈ ms, floorHour m.timestamp ≤ r.timestamp
            ∧ r.timestamp ≤ floorHour m.timestamp + 59) := by
  refine ⟨?_, ?_, ?_⟩
  · intro s e nDeploys minuteOf critDraw sizeDraw l h r hr
    simp only [generate_deploy_events] at h
    split at h
    · exact absurd h (by simp)
    · cases h
      rw [mem_sortByKey] at hr
      simp only [List.mem_flatMap, List.mem_map, List.mem_range] at hr
      obtain ⟨hourTs, hhour, i, _, rfl⟩ := hr
      have hb := mem_hoursBetween hhour
      have hm : ((minuteOf hourTs i).val : Int) < 60 := by
        exact_mod_cast Int.ofNat_lt.mpr (minuteOf hourTs i).isLt
      simp only
      omega
  · have hd : dayOfWeek 0 = 0 := by decide
    have hh : hourOfDay 0 = 0 := by decide
    have hrs : hoursBetween 0 0 = [0] := by decide
    have hdec : decide ((1:ℚ) < base_crit 0 0) = false :=
      decide_eq_false (by norm_num [base_crit])
    have hsize : (0:ℚ) < 45/100 := by norm_num
    simp [generate_deploy_events, hrs, hd, hh, hdec, hsize, sortByKey, insertSorted,
      chooseSizeRegular]
  · intro deploys ms incDraw nLoad minuteOf l h r hr hload
    simp only [generate_incidents] at h
    split at h
    · exact absurd h (by simp)
    · cases h
      rw [mem_sortByKey] at hr
      rcases List.mem_append.mp hr with hdep | hld
      · simp only [List.mem_filterMap] at hdep
        obtain ⟨pair, _, hsome⟩ := hdep
        split at hsome
        · cases hsome
          exact absurd hload (by simp)
        · exact absurd hsome (by simp)
      · simp only [List.mem_flatMap, List.mem_map, List.mem_range] at hld
        obtain ⟨hourTs, hkey, j, _, rfl⟩ := hld
        obtain ⟨m, hme, hmk⟩ := mem_matchHourKeys.mp hkey
        refine ⟨m, hme, ?_⟩
        have hm : ((minuteOf hourTs j).val : Int) < 60 := by
          exact_mod_cast Int.ofNat_lt.mpr (minuteOf hourTs j).isLt
        simp only
        omega

theorem hourlyMatch_nonneg {ms : List MatchEvent}
    (h : ∀ m ∈ ms, 0 ≤ m.traffic_multiplier) (k : Int) :
    0 ≤ hourlyMatch ms k := by
  apply List.sum_nonneg
  intro x hx
  simp only [List.mem_map, List.mem_filter] at hx
  obtain ⟨m, ⟨hm, _⟩, rfl⟩ := hx
  exact h m hm

set_option maxHeartbeats 1000000 in
theorem preClampProb_bounds (dow hour : Nat) (isCrit : Bool) (size : DeploySize)
    (near : ℚ) (hnn : 0 ≤ near) :
    10/1000 ≤ preClampProb dow hour isCrit size near
    ∧ preClampProb dow hour isCrit size near ≤ 205/1000 := by
  have hq0 : 0 ≤ min ((8:ℚ)/100) (near * (2/100)) :=
    le_min (by norm_num) (mul_nonneg hnn (by norm_num))
  have hq1 : min ((8:ℚ)/100) (near * (2/100)) ≤ 8/100 := min_le_left _ _
  simp only [preClampProb]
  generalize hg : min ((8:ℚ)/100) (near * (2/100)) = q at hq0 hq1 ⊢
  split_ifs <;> constructor <;> first | linarith | (exfalso; omega)

/-- C10: when every traffic multiplier is non-negative, the pre-clamp
incident probability lies in [0.010, 0.205], so the clamp to [0, 0.95] is
the identity on it. -/
theorem preclamp_prob_in_range_clip_identity :
    ∀ ms : List MatchEvent, (∀ m ∈ ms, 0 ≤ m.traffic_multiplier) →
    ∀ (dow hour : Nat) (isCrit : Bool) (size : DeploySize) (hourTs : Int),
      10/1000 ≤ preClampProb dow hour isCrit size (nearMatchIntensity ms hourTs)
      ∧ preClampProb dow hour isCrit size (nearMatchIntensity ms hourTs) ≤ 205/1000
      ∧ incidentProb dow hour isCrit size (nearMatchIntensity ms hourTs)
          = preClampProb dow hour isCrit size (nearMatchIntensity ms hourTs) := by
  intro ms hms dow hour isCrit size hourTs
  have hnn : 0 ≤ nearMatchIntensity ms hourTs := by
    simp only [nearMatchIntensity]
    exact le_trans (hourlyMatch_nonneg hms (hourTs + 120)) (le_max_right _ _)
  have hb := preClampProb_bounds dow hour isCrit size _ hnn
  refine ⟨hb.1, hb.2, ?_⟩
  simp only [incidentProb, clipQ]
  rw [max_eq_right (by linarith [hb.1]), min_eq_right (by linarith [hb.2])]

/-- Witness for C6: a concrete Wednesday 19:00 run of the match generator
(timestamp 4020 = day 2, hour 19) with all occurrence draws 0 emits the
Brasileirao, Champions League and Libertadores rows. -/
theorem generated_tables_sorted_witness :
    ([⟨4020, "Brasileirao", clipQ 2 1 (16/5)⟩,
      ⟨4020, "Champions League", clipQ 2 1 (16/5)⟩,
      ⟨4020, "Libertadores", clipQ 2 1 (16/5)⟩] : List MatchEvent).Pairwise
      (fun a b => a.timestamp ≤ b.timestamp) :=
  generated_tables_sorted.1 4020 4020 (fun _ _ => 0) (fun _ _ => 2)
    [⟨4020, "Brasileirao", clipQ 2 1 (16/5)⟩,
      ⟨4020, "Champions League", clipQ 2 1 (16/5)⟩,
      ⟨4020, "Libertadores", clipQ 2 1 (16/5)⟩]
    (by
      have hrs : hoursBetween 4020 4020 = [4020] := by decide
      have hd : dayOfWeek 4020 = 2 := by decide
      have hh : hourOfDay 4020 = 19 := by decide
      norm_num [generate_match_events, hrs, hd, hh, windows, sortByKey, insertSorted,
        List.filterMap_cons, List.filterMap_nil])

/-- Witness for C7: the multiplier of the first row emitted by the concrete
Wednesday 19:00 run lies in [1, 16/5]. -/
theorem field_domains_witness :
    1 ≤ (MatchEvent.mk 4020 "Brasileirao" (clipQ 2 1 (16/5))).traffic_multiplier
    ∧ (MatchEvent.mk 4020 "Brasileirao" (clipQ 2 1 (16/5))).traffic_multiplier
        ≤ 16/5 :=
  field_domains.1 4020 4020 (fun _ _ => 0) (fun _ _ => 2)
    [⟨4020, "Brasileirao", clipQ 2 1 (16/5)⟩,
      ⟨4020, "Champions League", clipQ 2 1 (16/5)⟩,
      ⟨4020, "Libertadores", clipQ 2 1 (16/5)⟩]
    (by
      have hrs : hoursBetween 4020 4020 = [4020] := by decide
      have hd : dayOfWeek 4020 = 2 := by decide
      have hh : hourOfDay 4020 = 19 := by decide
      norm_num [generate_match_events, hrs, hd, hh, windows, sortByKey, insertSorted,
        List.filterMap_cons, List.filterMap_nil])
    ⟨4020, "Brasileirao", clipQ 2 1 (16/5)⟩ (by simp)

/-- Witness for C3: the window bound applied at the empty table and hour 0. -/
theorem near_match_window_max_witness :
    hourlyMatch [] 0 ≤ nearMatchIntensity [] 0 :=
  (near_match_intensity_is_window_max [] 0).1 0 (by decide)

/-- Witness for C8: a single deploy at Monday 00:00 with zero uniform draw
emits one deploy_incident row and nothing else. -/
theorem empty_match_no_load_witness :
    (Incident.mk 0 IncidentType.deploy_incident Severity.low).incident_type
      = IncidentType.deploy_incident :=
  empty_match_table_no_load_incidents.2 [⟨0, false, DeploySize.small⟩]
    (fun _ => 0) (fun _ _ => 0) (fun _ _ => 0)
    [⟨0, IncidentType.deploy_incident, Severity.low⟩]
    (by
      have hd : dayOfWeek 0 = 0 := by decide
      have hh : hourOfDay 0 = 0 := by decide
      have hf : floorHour 0 = 0 := by decide
      have he : ([(⟨0, false, DeploySize.small⟩ : DeployEvent)]).enum
          = [(0, ⟨0, false, DeploySize.small⟩)] := rfl
      have hnear : nearMatchIntensity [] 0 = 0 := by
        norm_num [nearMatchIntensity, hourlyMatch]
      have hsl : ¬ (DeploySize.small = DeploySize.large) := by decide
      have hsm : ¬ (DeploySize.small = DeploySize.medium) := by decide
      have hp : incidentProb 0 0 false DeploySize.small 0 = 1/100 := by
        norm_num [incidentProb, preClampProb, clipQ, min_def, max_def, hsl, hsm]
      have hsev : severityOf (1/100) = Severity.low := by
        norm_num [severityOf]
      norm_num [generate_incidents, matchHourKeys, dedupInt, sortByKey, insertSorted,
        List.filterMap_cons, List.filterMap_nil, hd, hh, hf, he, hnear, hp, hsev])
    ⟨0, IncidentType.deploy_incident, Severity.low⟩ (by simp)

/-- Witness for C9: the deploy emitted at the start = end = 0 run with
minute draw 59 satisfies the grid bound. -/
theorem deploy_timestamp_bounds_witness :
    (0:Int) ≤ (DeployEvent.mk 59 false DeploySize.small).timestamp
    ∧ (DeployEvent.mk 59 false DeploySize.small).timestamp
        ≤ lastGridHour 0 0 + 59 :=
  deploy_timestamp_bounds.1 0 0 (fun _ _ => 1) (fun _ _ => ⟨59, by omega⟩)
    (fun _ _ => 1) (fun _ _ => 0) [⟨59, false, DeploySize.small⟩]
    deploy_timestamp_bounds.2.1 ⟨59, false, DeploySize.small⟩ (by simp)

/-- Witness for C10: the probability bounds and clip identity at the empty
match table and a Monday-midnight small non-critical deploy. -/
theorem preclamp_identity_witness :
    10/1000 ≤ preClampProb 0 0 false DeploySize.small (nearMatchIntensity [] 0)
    ∧ preClampProb 0 0 false DeploySize.small (nearMatchIntensity [] 0) ≤ 205/1000
    ∧ incidentProb 0 0 false DeploySize.small (nearMatchIntensity [] 0)
        = preClampProb 0 0 false DeploySize.small (nearMatchIntensity [] 0) :=
  preclamp_prob_in_range_clip_identity [] (by simp) 0 0 false DeploySize.small 0
